import Mathlib

/-!
Verification of the probe-selection and classification engine of the
`egamma-tnp` repository, shallowly embedded in Lean 4.

The embedding follows the two source files:
* `src/egamma_tnp/ntuple_efficiency.py` (`TagNProbeFromNTuples`)
* `src/egamma_tnp/_base_tagnprobe.py` (`BaseTagNProbe`)

Machine floats are modelled as exact rationals, awkward columnar batches as
lists of records, boolean masks as `Bool`-valued predicates and per-stage
boolean indexing as `List.filter`.
-/

namespace EgammaTnp

/-- One event row of an E/Gamma ntuple batch, with the columns read by
`TagNProbeFromNTuples._find_probes` and `_find_probe_events`:
probe kinematics (`el_pt`, `el_eta`, `el_phi`), supercluster coordinates
(`el_sc_eta`, `el_sc_phi`), charges (`el_q`, `tag_Ele_q`), tag kinematics
(`tag_Ele_pt`, `tag_Ele_eta`), the tag-probe pair invariant mass
(`pair_mass`), run and lumi identifiers, the configured filter decision
column (`filterFlag`, the value of `events[self.filter]`) and the cut-based
identification column (`cutbasedFlag`, the value of
`events[self.cutbased_id]`). -/
structure NTEvent where
  el_pt : ℚ
  el_eta : ℚ
  el_phi : ℚ
  el_sc_eta : ℚ
  el_sc_phi : ℚ
  el_q : ℤ
  tag_Ele_pt : ℚ
  tag_Ele_eta : ℚ
  tag_Ele_q : ℤ
  pair_mass : ℚ
  run : ℕ
  lumi : ℕ
  filterFlag : ℤ
  cutbasedFlag : ℤ
deriving DecidableEq, Repr

/-- Configuration of a `TagNProbeFromNTuples` instance as stored by
`__init__`: the kinematic cuts, whether a cut-based id is configured
(truthiness of `self.cutbased_id`), the optional golden-json luminosity
mask provider, the optional external filter, and the supercluster
coordinate switches. -/
structure NTConfig where
  tags_pt_cut : ℚ
  probes_pt_cut : ℚ
  tags_abseta_cut : ℚ
  cutbased_id : Bool
  goldenjson : Option (ℕ → ℕ → Bool)
  extra_filter : Option (List NTEvent → List NTEvent)
  use_sc_eta : Bool
  use_sc_phi : Bool

/-- The mass-window test of `_find_probe_events`:
in cut-and-count mode `abs(events.pair_mass - 91.1876) < 30`, otherwise
`(events.pair_mass > 50) & (events.pair_mass < 130)`. -/
def inMassWindow (cut_and_count : Bool) (m : ℚ) : Bool :=
  if cut_and_count then decide (|m - 91.1876| < 30)
  else decide (m > 50) && decide (m < 130)

/-- The probe-side cut of `_find_probe_events`: the conjunction
`pass_cutbased_id & in_mass_window & pass_pt_probes`, where
`pass_cutbased_id` is `events[self.cutbased_id] == 1` when a cut-based id
is configured and `True` otherwise, and
`pass_pt_probes` is `events.el_pt > self.probes_pt_cut`. -/
def probeCut (cfg : NTConfig) (cut_and_count : Bool) (e : NTEvent) : Bool :=
  (if cfg.cutbased_id then decide (e.cutbasedFlag = 1) else true)
    && inMassWindow cut_and_count e.pair_mass
    && decide (e.el_pt > cfg.probes_pt_cut)

/-- `all_probe_events` of `_find_probe_events`: the events surviving the
probe-side cut. -/
def allProbeEvents (cfg : NTConfig) (cut_and_count : Bool)
    (events : List NTEvent) : List NTEvent :=
  events.filter (probeCut cfg cut_and_count)

/-- `passing_locs` of `_find_probe_events`:
`all_probe_events[self.filter] == 1`. -/
def passingLoc (e : NTEvent) : Bool :=
  decide (e.filterFlag = 1)

/-- `TagNProbeFromNTuples._find_probe_events`: keep events passing the
probe cut, then split them into `all_probe_events[passing_locs]` and
`all_probe_events[~passing_locs]`. -/
def findProbeEvents (cfg : NTConfig) (cut_and_count : Bool)
    (events : List NTEvent) : List NTEvent × List NTEvent :=
  let alls := allProbeEvents cfg cut_and_count events
  (alls.filter passingLoc, alls.filter (fun e => !passingLoc e))

/-- The supercluster coordinate substitution of `_find_probes`:
`events["el_eta"] = events.el_sc_eta` when `use_sc_eta` and
`events["el_phi"] = events.el_sc_phi` when `use_sc_phi`. -/
def scSubstitute (cfg : NTConfig) (e : NTEvent) : NTEvent :=
  let e1 := if cfg.use_sc_eta then { e with el_eta := e.el_sc_eta } else e
  if cfg.use_sc_phi then { e1 with el_phi := e1.el_sc_phi } else e1

/-- The tag-side cut of `_find_probes`: the conjunction
`pass_pt_tags & pass_abseta_tags & opposite_charge` with
`pass_pt_tags = events.tag_Ele_pt > self.tags_pt_cut`,
`pass_abseta_tags = abs(events.tag_Ele_eta) < self.tags_abseta_cut` and
`opposite_charge = events.tag_Ele_q * events.el_q == -1`. -/
def tagCuts (cfg : NTConfig) (e : NTEvent) : Bool :=
  decide (e.tag_Ele_pt > cfg.tags_pt_cut)
    && decide (|e.tag_Ele_eta| < cfg.tags_abseta_cut)
    && decide (e.tag_Ele_q * e.el_q = -1)

/-- One output probe record of `_find_probes`: the `dak.zip` of
`el_pt`, `el_eta`, `el_phi` (plus `pair_mass` when `cut_and_count` is
false, modelled as an `Option`). -/
structure ProbeOut where
  pt : ℚ
  eta : ℚ
  phi : ℚ
  pair_mass : Option ℚ
deriving DecidableEq, Repr

/-- The output projection of `_find_probes`: the fields zipped for a
surviving event. -/
def projPass (cut_and_count : Bool) (e : NTEvent) : ProbeOut :=
  { pt := e.el_pt, eta := e.el_eta, phi := e.el_phi,
    pair_mass := if cut_and_count then none else some e.pair_mass }

/-- The first two stages of `_find_probes`: the external filter
(`events = self.extra_filter(events, **self.extra_filter_args)`) followed
by the golden-json luminosity mask
(`events = events[lumimask(events.run, events.lumi)]`). -/
def preSelection (cfg : NTConfig) (events : List NTEvent) : List NTEvent :=
  let events1 := match cfg.extra_filter with
    | some f => f events
    | none => events
  match cfg.goldenjson with
  | some mask => events1.filter (fun (e : NTEvent) => mask e.run e.lumi)
  | none => events1

/-- `TagNProbeFromNTuples._find_probes`, stage for stage in source order:
external filter, golden-json luminosity mask, supercluster substitution,
tag cuts, then `_find_probe_events` and the output zip. -/
def findProbes (cfg : NTConfig) (cut_and_count : Bool)
    (events : List NTEvent) : List ProbeOut × List ProbeOut :=
  let events2 := preSelection cfg events
  let events3 := events2.map (scSubstitute cfg)
  let events4 := events3.filter (tagCuts cfg)
  let pf := findProbeEvents cfg cut_and_count events4
  (pf.1.map (projPass cut_and_count), pf.2.map (projPass cut_and_count))

/-- The pipeline of `_find_probes` with the supercluster substitution moved
to the very front, before the external filter and the luminosity mask: the
stage order asserted by the spec. All other stages are unchanged. -/
def findProbesSubstFirst (cfg : NTConfig) (cut_and_count : Bool)
    (events : List NTEvent) : List ProbeOut × List ProbeOut :=
  let events0 := events.map (scSubstitute cfg)
  let events2 := preSelection cfg events0
  let events4 := events2.filter (tagCuts cfg)
  let pf := findProbeEvents cfg cut_and_count events4
  (pf.1.map (projPass cut_and_count), pf.2.map (projPass cut_and_count))

/-- The pipeline of `_find_probes` with the supercluster substitution
delayed past every built-in cut, to just before the output projection. -/
def findProbesSubstLate (cfg : NTConfig) (cut_and_count : Bool)
    (events : List NTEvent) : List ProbeOut × List ProbeOut :=
  let events2 := preSelection cfg events
  let events4 := events2.filter (tagCuts cfg)
  let pf := findProbeEvents cfg cut_and_count events4
  ((pf.1.map (scSubstitute cfg)).map (projPass cut_and_count),
    (pf.2.map (scSubstitute cfg)).map (projPass cut_and_count))

/-- The content of the caller's events object after `_find_probes` returns,
modelling Python aliasing: `events = self.extra_filter(events, ...)` and
`events = events[mask]` rebind the local name to fresh arrays, while
`events["el_eta"] = events.el_sc_eta` and
`events["el_phi"] = events.el_sc_phi` are in-place column assignments on
the array object currently bound; when neither an external filter nor a
golden json rebinds the name first, those assignments land on the caller's
batch object. -/
def findProbesBatchAfter (cfg : NTConfig) (events : List NTEvent) :
    List NTEvent :=
  if cfg.extra_filter.isNone && cfg.goldenjson.isNone then
    events.map (scSubstitute cfg)
  else events

/-- The `mass_range` argument of the `BaseTagNProbe` query methods after
the `None` default has been substituted: a single scalar (Python int or
float) or a two-element tuple; `isinstance(mass_range, tuple)`
distinguishes the two shapes. -/
inductive MassRange where
  | scalar : ℚ → MassRange
  | pair : ℚ → ℚ → MassRange
deriving DecidableEq, Repr

/-- `isinstance(mass_range, tuple)`. -/
def MassRange.isPair : MassRange → Bool
  | .scalar _ => false
  | .pair _ _ => true

/-- The `if mass_range is None` default block shared by the public query
methods of `BaseTagNProbe`: 30 around the Z mass for cut and count, the
50 to 130 range otherwise. -/
def defaultedMassRange (cut_and_count : Bool)
    (mass_range : Option MassRange) : MassRange :=
  match mass_range with
  | none => if cut_and_count then .scalar 30 else .pair 50 130
  | some mr => mr

/-- The message of the `ValueError` raised when cut and count is combined
with a tuple mass range. -/
def cutAndCountErrorMsg : String :=
  "For cut and count efficiencies, mass_range must be a single value representing the mass window around the Z mass."

/-- The message of the `ValueError` raised when the fit mode is combined
with a non-tuple mass range. -/
def mllErrorMsg : String :=
  "For invariant masses to be fit with a Sig+Bkg model, mass_range must be a tuple of two values representing the bounds of the mass range."

/-- The default substitution followed by the two `raise ValueError` checks,
exactly as they appear in `get_tnp_arrays`, `get_passing_and_failing_probes`,
`get_1d_pt_eta_phi_tnp_histograms` and `get_nd_tnp_histograms`. -/
def resolveMassRange (cut_and_count : Bool) (mass_range : Option MassRange) :
    Except String MassRange :=
  let mr := defaultedMassRange cut_and_count mass_range
  if cut_and_count && mr.isPair then .error cutAndCountErrorMsg
  else if !cut_and_count && !mr.isPair then .error mllErrorMsg
  else .ok mr

/-- `BaseTagNProbe.get_tnp_arrays` reduced to its decision structure:
resolve and validate the mass window, then hand the fileset to the
processing layer (`apply_to_fileset` with the constructed
`data_manipulation`), abstracted as `process`. -/
def getTnpArraysQuery {F A : Type} (fileset : F)
    (process : F → Bool → MassRange → A) (cut_and_count : Bool)
    (mass_range : Option MassRange) : Except String A :=
  match resolveMassRange cut_and_count mass_range with
  | .error e => .error e
  | .ok mr => .ok (process fileset cut_and_count mr)

/-- `BaseTagNProbe.get_nd_tnp_histograms` reduced to its decision
structure; its validation lines are identical to those of
`get_tnp_arrays`. -/
def getNdTnpHistogramsQuery {F A : Type} (fileset : F)
    (process : F → Bool → MassRange → A) (cut_and_count : Bool)
    (mass_range : Option MassRange) : Except String A :=
  match resolveMassRange cut_and_count mass_range with
  | .error e => .error e
  | .ok mr => .ok (process fileset cut_and_count mr)

/-- Modelled from the spec: the mass-window classification applied inside
implementations of `BaseTagNProbe.find_probes` (the concrete overrides of
this abstract method are not part of this repository slice). Per spec
section 4.2, in cut-and-count mode the pair mass must satisfy
`abs (mass - 91.1876) < window`, and in range mode
`low < mass < high` with strict inequalities. -/
def massCls : MassRange → ℚ → Bool
  | .scalar w, m => decide (|m - 91.1876| < w)
  | .pair lo hi, m => decide (lo < m) && decide (m < hi)

/-- Modelled from the spec: the per-event mass-window selection performed
by `find_probes` implementations over the pair masses of a batch; the
resolved mass range of the query is applied uniformly to every event. -/
def selectByMassWindow (mr : MassRange) (masses : List ℚ) : List ℚ :=
  masses.filter (massCls mr)

/-- `get_tnp_arrays` specialised to the pair-mass column of a single
batch: resolve the mass window once, then run the spec-modelled per-event
selection with the resolved value. -/
def getTnpArraysMasses (cut_and_count : Bool)
    (mass_range : Option MassRange) (masses : List ℚ) :
    Except String (List ℚ) :=
  getTnpArraysQuery masses
    (fun ms _cc mr => selectByMassWindow mr ms) cut_and_count mass_range

/-- A column value of a probe record: numeric or boolean. -/
inductive PVal where
  | num : ℚ → PVal
  | bool : Bool → PVal
deriving DecidableEq, Repr

/-- A raw input row of a `BaseTagNProbe` batch: named numeric source
columns. -/
abbrev Row : Type := List (String × ℚ)

/-- Reading a named column of a raw row. -/
def rowGet (r : Row) (k : String) : ℚ :=
  match r.find? (fun kv => kv.1 == k) with
  | some kv => kv.2
  | none => 0

/-- A probe record produced by `find_probes`: an ordered collection of
named fields (`dak.zip` of the requested variables and the filter
columns). -/
structure PRec where
  fields : List (String × PVal)
deriving DecidableEq, Repr

/-- The field names of a probe record. -/
def PRec.names (p : PRec) : List String := p.fields.map Prod.fst

/-- Reading the boolean filter column `probes[filter]` of one probe
record. -/
def PRec.filterValue (p : PRec) (filter : String) : Bool :=
  match p.fields.find? (fun kv => kv.1 == filter) with
  | some kv =>
    match kv.2 with
    | PVal.bool b => b
    | PVal.num q => decide (q ≠ 0)
  | none => false

/-- Reading a numeric column of one probe record. -/
def PRec.numValue (p : PRec) (k : String) : ℚ :=
  match p.fields.find? (fun kv => kv.1 == k) with
  | some kv =>
    match kv.2 with
    | PVal.num q => q
    | PVal.bool _ => 0
  | none => 0

/-- Modelled from the spec: the record built by `find_probes`
implementations for one surviving probe, carrying the fields requested in
`vars`, one boolean column per configured filter (the filter decision
column compared to 1), and a `pair_mass` field when `cut_and_count` is
false. -/
def probeRecOfRow (filters : List String) (cut_and_count : Bool)
    (vars : List String) (r : Row) : PRec :=
  { fields := vars.map (fun v => (v, PVal.num (rowGet r v)))
      ++ filters.map (fun fl => (fl, PVal.bool (decide (rowGet r fl = 1))))
      ++ (if cut_and_count then []
          else [("pair_mass", PVal.num (rowGet r "pair_mass"))]) }

/-- Modelled from the spec: implementations of `BaseTagNProbe.find_probes`
(absent from this repository slice; see its docstring and spec section
4.1) return, for each probe surviving the selection -- abstracted here as
the predicate `select` -- one record built by `probeRecOfRow`. -/
def findProbesBase (select : Row → Bool) (filters : List String)
    (cut_and_count : Bool) (vars : List String) (rows : List Row) :
    List PRec :=
  (rows.filter select).map (probeRecOfRow filters cut_and_count vars)

/-- The awkward `.fields` schema of the record array returned by
`findProbesBase`. -/
def probesSchema (filters : List String) (cut_and_count : Bool)
    (vars : List String) : List String :=
  vars ++ filters ++ (if cut_and_count then [] else ["pair_mass"])

/-- The split `probes[probes[filter]]` and `probes[~probes[filter]]` used
by `get_passing_and_failing_probes`, `_make_cutncount_histograms` and
`_make_mll_histograms`. -/
def splitByFilter (filter : String) (probes : List PRec) :
    List PRec × List PRec :=
  (probes.filter (fun p => p.filterValue filter),
    probes.filter (fun p => !p.filterValue filter))

/-- Removing one named top-level column from a record. -/
def removeField (n : String) (p : PRec) : PRec :=
  { fields := p.fields.filter (fun kv => !(kv.1 == n)) }

/-- The error message of `dask_awkward.without_field` when its field path
does not address a removable field. -/
def withoutFieldErrorMsg : String :=
  "without_field path does not address a top-level column of a flat probe record"

/-- `dask_awkward.without_field(array, where)` over a probe collection:
`where` is the name or the path of ONE field, so a list argument is read
as a nested field path, not as a set of fields. A single-element path
removes that top-level column from every record; a longer path would have
to descend into a record-valued column, and every probe-record column is
a flat number or boolean, so the call fails. This is what
`dak.without_field(probes[...], self.filters)` does when more than one
filter is configured. -/
def withoutFieldArr (path : List String) (ps : List PRec) :
    Except String (List PRec) :=
  match path with
  | [n] => .ok (ps.map (removeField n))
  | _ => .error withoutFieldErrorMsg

/-- The per-batch body (`data_manipulation`, non-flat variant) of
`BaseTagNProbe.get_passing_and_failing_probes`: find probes, index the
probe collection by its boolean filter column, and call
`dak.without_field` with the configured filter list on both outputs (the
passing call runs first, so its failure surfaces first). -/
def getPassingAndFailingProbes (select : Row → Bool)
    (filters : List String) (filter : String) (cut_and_count : Bool)
    (vars : List String) (rows : List Row) :
    Except String (List PRec × List PRec) :=
  let probes := findProbesBase select filters cut_and_count vars rows
  let pf := splitByFilter filter probes
  match withoutFieldArr filters pf.1 with
  | .error e => .error e
  | .ok passing =>
    match withoutFieldArr filters pf.2 with
    | .error e => .error e
    | .ok failing => .ok (passing, failing)

/-- The dataset metadata keys read by `_make_cutncount_histograms` and
`_make_mll_histograms`. -/
structure Metadata where
  isMC : Bool
  pileupJSON : Option String
  pileupData : Option String
  pileupMC : Option String

/-- Whether a pileup-correction source is configured:
`"pileupJSON" in events.metadata` or both `"pileupData"` and
`"pileupMC"`. -/
def Metadata.pileupSource (m : Metadata) : Bool :=
  m.pileupJSON.isSome || (m.pileupData.isSome && m.pileupMC.isSome)

/-- The truth-pileup variable appended to `vars` for simulated datasets:
`"truePU"` when present among the event fields, else
`"Pileup_nTrueInt"`. -/
def truthPileupVar (eventFields : List String) : String :=
  if eventFields.contains "truePU" then "truePU" else "Pileup_nTrueInt"

/-- `probes["PU_weight"] = get_pileup_weight(probes.<v>, pileup_corr)`:
append the pileup-weight column computed from the truth-pileup field `v`;
`puWeight` abstracts the external `get_pileup_weight` together with the
loaded correction. -/
def attachPUWeight (puWeight : ℚ → ℚ) (v : String) (p : PRec) : PRec :=
  { fields := p.fields ++ [("PU_weight", PVal.num (puWeight (p.numValue v)))] }

/-- The values handed to the external fill functions by
`_make_cutncount_histograms` and `_make_mll_histograms`: the passing and
failing probe records, and the final state of the caller's `vars` list
(which the methods mutate in place via `append` and `remove`). -/
structure HistStageResult where
  passing : List PRec
  failing : List PRec
  varsAfter : List String

/-- `BaseTagNProbe._make_cutncount_histograms` (with `cut_and_count` true)
and `BaseTagNProbe._make_mll_histograms` (with `cut_and_count` false); the
two bodies are identical apart from the mode passed to `find_probes` and
the external fill functions invoked on the returned records. For a
simulated dataset the truth-pileup variable is appended to `vars`; after
the filter split, if a pileup source is configured and the truth-pileup
field is present in the probe schema, the `PU_weight` column is attached
to both subsets and the truth-pileup variable is removed from `vars`.
The checks `"truePU" in passing_probes.fields` and
`"truePU" in failing_probes.fields` test the shared record schema, modelled
by `probesSchema`. -/
def makeTnpHistograms (select : Row → Bool) (filters : List String)
    (puWeight : ℚ → ℚ) (cut_and_count : Bool) (meta : Metadata)
    (eventFields : List String) (rows : List Row) (filter : String)
    (vars : List String) : HistStageResult :=
  let vars1 := if meta.isMC then vars ++ [truthPileupVar eventFields] else vars
  let probes := findProbesBase select filters cut_and_count vars1 rows
  let pf := splitByFilter filter probes
  let schema := probesSchema filters cut_and_count vars1
  if meta.isMC && meta.pileupSource then
    if schema.contains "truePU" then
      { passing := pf.1.map (attachPUWeight puWeight "truePU"),
        failing := pf.2.map (attachPUWeight puWeight "truePU"),
        varsAfter := vars1.erase "truePU" }
    else if schema.contains "Pileup_nTrueInt" then
      { passing := pf.1.map (attachPUWeight puWeight "Pileup_nTrueInt"),
        failing := pf.2.map (attachPUWeight puWeight "Pileup_nTrueInt"),
        varsAfter := vars1.erase "Pileup_nTrueInt" }
    else
      { passing := pf.1, failing := pf.2, varsAfter := vars1 }
  else
    { passing := pf.1, failing := pf.2, varsAfter := vars1 }

/-- The outcome of the `probes_pt_cut` handling in
`BaseTagNProbe.__init__`: `attr` is the value of the instance attribute
`self.probes_pt_cut` after construction (`none` when the attribute was
never assigned, so that reading it raises `AttributeError`); `localVar`
is the final value of the local parameter variable `probes_pt_cut`. -/
structure InitProbesPtCut where
  attr : Option (Option ℚ)
  localVar : Option ℚ
deriving DecidableEq, Repr

/-- The `probes_pt_cut` branch structure of `BaseTagNProbe.__init__`:
when the parameter is `None` and exactly one filter is configured, the
attribute is assigned `find_pt_threshold(filters[0]) - 3` (the helper is
external, abstracted as `findPtThreshold`); when the parameter is `None`
and more than one filter is configured, only the local variable is rebound
to 5 and the attribute is never assigned; otherwise the attribute is
assigned the parameter value. -/
def initProbesPtCut (findPtThreshold : String → ℚ)
    (filters : List String) (probes_pt_cut : Option ℚ) : InitProbesPtCut :=
  if probes_pt_cut.isNone && filters.length == 1 then
    { attr := some (some (findPtThreshold (filters.headD "") - 3)),
      localVar := probes_pt_cut }
  else if probes_pt_cut.isNone && decide (filters.length > 1) then
    { attr := none, localVar := some 5 }
  else
    { attr := some probes_pt_cut, localVar := probes_pt_cut }

/-- The first event of the four-event synthetic scenario: every cut is
satisfied and the filter flag is set. -/
def scenarioEvent1 : NTEvent :=
  { el_pt := 30, el_eta := 0, el_phi := 0, el_sc_eta := 0, el_sc_phi := 0,
    el_q := -1, tag_Ele_pt := 40, tag_Ele_eta := 0, tag_Ele_q := 1,
    pair_mass := 91, run := 1, lumi := 1, filterFlag := 1, cutbasedFlag := 1 }

/-- The second scenario event: tag pt 20 and filter flag 0. -/
def scenarioEvent2 : NTEvent :=
  { scenarioEvent1 with tag_Ele_pt := 20, filterFlag := 0 }

/-- The third scenario event: same-sign tag and probe charges. -/
def scenarioEvent3 : NTEvent :=
  { scenarioEvent1 with el_q := 1 }

/-- The fourth scenario event: probe pt 2. -/
def scenarioEvent4 : NTEvent :=
  { scenarioEvent1 with el_pt := 2 }

/-- The scenario configuration: `probes_pt_cut` 5, `tags_pt_cut` 35, no
cut-based id, no golden json, no external filter, track coordinates. -/
def scenarioConfig : NTConfig :=
  { tags_pt_cut := 35, probes_pt_cut := 5, tags_abseta_cut := 2.5,
    cutbased_id := false, goldenjson := none, extra_filter := none,
    use_sc_eta := false, use_sc_phi := false }

/-- A configuration whose external filter keeps events with `el_eta`
below 1, combined with supercluster eta substitution. -/
def reorderConfig : NTConfig :=
  { tags_pt_cut := 35, probes_pt_cut := 5, tags_abseta_cut := 2.5,
    cutbased_id := false, goldenjson := none,
    extra_filter := some (fun evs =>
      evs.filter (fun e => decide (e.el_eta < 1))),
    use_sc_eta := true, use_sc_phi := false }

/-- An event with track eta 0 and supercluster eta 3: the external filter
of `reorderConfig` keeps it only while the substitution has not yet
happened. -/
def reorderEvent : NTEvent :=
  { scenarioEvent1 with el_sc_eta := 3 }

/-- A configuration with supercluster eta substitution and neither an
external filter nor a golden json, so the in-place column assignment of
`_find_probes` lands on the caller's batch. -/
def mutConfig : NTConfig :=
  { tags_pt_cut := 35, probes_pt_cut := 5, tags_abseta_cut := 2.5,
    cutbased_id := false, goldenjson := none, extra_filter := none,
    use_sc_eta := true, use_sc_phi := false }

/-- An event whose track eta 0 differs from its supercluster eta 3, so
the substitution visibly changes the `el_eta` column. -/
def mutEvent : NTEvent :=
  { scenarioEvent1 with el_sc_eta := 3 }

/-- Helper: splitting a list by a boolean predicate and its negation is a
partition: the lengths add up to the original length, every element lands
in at least one part, and no element lands in both. -/
theorem filter_not_partition {α : Type} (p : α → Bool) (l : List α) :
    (l.filter p).length + (l.filter (fun a => !p a)).length = l.length
    ∧ (∀ a, a ∈ l ↔ a ∈ l.filter p ∨ a ∈ l.filter (fun a => !p a))
    ∧ ∀ a, ¬(a ∈ l.filter p ∧ a ∈ l.filter (fun a => !p a)) := by
  refine ⟨(List.length_eq_length_filter_add p).symm, fun a => ?_, fun a => ?_⟩
  case _ =>
    constructor
    case mp =>
      intro ha
      by_cases h : p a
      case pos => exact Or.inl (List.mem_filter.mpr ⟨ha, h⟩)
      case neg =>
        exact Or.inr (List.mem_filter.mpr ⟨ha, by simp [h]⟩)
    case mpr =>
      rintro (h | h)
      case inl => exact (List.mem_filter.mp h).1
      case inr => exact (List.mem_filter.mp h).1
  case _ =>
    rintro ⟨h1, h2⟩
    have hp := (List.mem_filter.mp h1).2
    have hn := (List.mem_filter.mp h2).2
    simp [hp] at hn

/-- C1: for every event batch, every configured filter and either
mass-window mode, the passing and failing subsets produced by probe
selection partition the surviving probe collection: in
`_find_probe_events` the two subsets of `all_probe_events` have lengths
summing to the whole, every surviving probe belongs to at least one
subset, and none belongs to both; the same holds for the
`probes[probes[filter]]` and `probes[~probes[filter]]` split used by the
histogram-making methods. -/
theorem passing_failing_partition :
    (∀ (cfg : NTConfig) (cut_and_count : Bool) (events : List NTEvent),
      (findProbeEvents cfg cut_and_count events).1.length
          + (findProbeEvents cfg cut_and_count events).2.length
        = (allProbeEvents cfg cut_and_count events).length
      ∧ (∀ e, e ∈ allProbeEvents cfg cut_and_count events ↔
          e ∈ (findProbeEvents cfg cut_and_count events).1
            ∨ e ∈ (findProbeEvents cfg cut_and_count events).2)
      ∧ ∀ e, ¬(e ∈ (findProbeEvents cfg cut_and_count events).1
            ∧ e ∈ (findProbeEvents cfg cut_and_count events).2))
    ∧ ∀ (filter : String) (probes : List PRec),
      (splitByFilter filter probes).1.length
          + (splitByFilter filter probes).2.length = probes.length
      ∧ (∀ p, p ∈ probes ↔ p ∈ (splitByFilter filter probes).1
            ∨ p ∈ (splitByFilter filter probes).2)
      ∧ ∀ p, ¬(p ∈ (splitByFilter filter probes).1
            ∧ p ∈ (splitByFilter filter probes).2) := by
  constructor
  case left =>
    intro cfg cut_and_count events
    simpa [findProbeEvents] using
      filter_not_partition passingLoc (allProbeEvents cfg cut_and_count events)
  case right =>
    intro filter probes
    simpa [splitByFilter] using
      filter_not_partition (fun p => p.filterValue filter) probes

/-- C1 witness: the partition property evaluated on the concrete
four-event scenario batch. -/
theorem passing_failing_partition_witness :
    (findProbeEvents scenarioConfig true [scenarioEvent1, scenarioEvent4]).1.length
        + (findProbeEvents scenarioConfig true [scenarioEvent1, scenarioEvent4]).2.length
      = (allProbeEvents scenarioConfig true [scenarioEvent1, scenarioEvent4]).length :=
  (passing_failing_partition.1 scenarioConfig true [scenarioEvent1, scenarioEvent4]).1

/-- C2: with the hard-coded window of 30 around 91.1876, the cut-and-count
mass classification of `_find_probe_events` keeps a pair mass exactly when
it is strictly within the window; the boundary masses 61.1876 and
121.1876 classify as false. -/
theorem cutncount_mass_window_strict :
    (∀ m : ℚ, inMassWindow true m = true ↔ |m - 91.1876| < 30)
    ∧ inMassWindow true 61.1876 = false
    ∧ inMassWindow true 121.1876 = false := by
  refine ⟨fun m => ?_, ?_, ?_⟩
  case _ => simp [inMassWindow]
  case _ => norm_num [inMassWindow, abs_lt]
  case _ => norm_num [inMassWindow, abs_lt]

/-- C3: on the synthetic four-event batch, the selection returns exactly
event 1 as passing and nothing as failing; event 2 fails the tag-pt cut,
event 3 fails the opposite-charge cut and event 4 fails the probe-pt
cut. -/
theorem scenario_four_events :
    findProbes scenarioConfig true
        [scenarioEvent1, scenarioEvent2, scenarioEvent3, scenarioEvent4]
      = ([projPass true scenarioEvent1], [])
    ∧ decide (scenarioEvent2.tag_Ele_pt > scenarioConfig.tags_pt_cut) = false
    ∧ decide (scenarioEvent3.tag_Ele_q * scenarioEvent3.el_q = -1) = false
    ∧ decide (scenarioEvent4.el_pt > scenarioConfig.probes_pt_cut) = false := by
  refine ⟨?_, ?_, ?_, ?_⟩
  case _ =>
    norm_num [findProbes, preSelection, findProbeEvents, allProbeEvents,
      probeCut, inMassWindow, tagCuts, scSubstitute, projPass, passingLoc,
      scenarioConfig, scenarioEvent1, scenarioEvent2, scenarioEvent3,
      scenarioEvent4, List.filter_cons, abs_lt]
  case _ => norm_num [scenarioEvent2, scenarioEvent1, scenarioConfig]
  case _ => norm_num [scenarioEvent3, scenarioEvent1]
  case _ => norm_num [scenarioEvent4, scenarioEvent1, scenarioConfig]

/-- C4: after the `None` default substitution, the shared mode and
mass-window validation raises exactly when cut-and-count is combined with
a tuple or the fit mode with a non-tuple; on an invalid configuration the
query skeletons return the error for any fileset and any processing
functions, so the fileset is never handed to the processing layer. -/
theorem query_validation_before_processing :
    ∀ (cut_and_count : Bool) (mass_range : Option MassRange),
      ((∃ s, resolveMassRange cut_and_count mass_range = .error s) ↔
        (cut_and_count = true
            ∧ (defaultedMassRange cut_and_count mass_range).isPair = true)
          ∨ (cut_and_count = false
            ∧ (defaultedMassRange cut_and_count mass_range).isPair = false))
      ∧ ∀ {F A : Type} (fs1 fs2 : F) (p1 p2 : F → Bool → MassRange → A)
          (s : String),
          resolveMassRange cut_and_count mass_range = .error s →
          getTnpArraysQuery fs1 p1 cut_and_count mass_range = .error s
          ∧ getNdTnpHistogramsQuery fs2 p2 cut_and_count mass_range
              = .error s := by
  intro cut_and_count mass_range
  constructor
  case left =>
    cases hcc : cut_and_count
    case false =>
      cases hmr : (defaultedMassRange false mass_range).isPair
      case false => simp [resolveMassRange, hmr]
      case true => simp [resolveMassRange, hmr]
    case true =>
      cases hmr : (defaultedMassRange true mass_range).isPair
      case false => simp [resolveMassRange, hmr]
      case true => simp [resolveMassRange, hmr]
  case right =>
    intro F A fs1 fs2 p1 p2 s h
    constructor
    case left => simp [getTnpArraysQuery, h]
    case right => simp [getNdTnpHistogramsQuery, h]

/-- C4 witness: cut-and-count combined with an explicit tuple fails
validation, and both query skeletons surface that error regardless of the
processing functions supplied. -/
theorem query_validation_before_processing_witness :
    getTnpArraysQuery (0 : ℕ) (fun _ _ _ => (0 : ℕ)) true
        (some (.pair 50 130)) = .error cutAndCountErrorMsg
    ∧ getNdTnpHistogramsQuery (0 : ℕ) (fun _ _ _ => (1 : ℕ)) true
        (some (.pair 50 130)) = .error cutAndCountErrorMsg :=
  (query_validation_before_processing true (some (.pair 50 130))).2
    0 0 (fun _ _ _ => 0) (fun _ _ _ => 1) cutAndCountErrorMsg rfl

/-- C5: the mass-window defaults are resolved once per query and the
resolved window is what the per-event classification uses: a
caller-supplied mass range is kept verbatim, the defaults 30 and 50 to
130 appear only for `None`, a valid query applies the single resolved
window uniformly to every pair mass of the batch, and the spec-modelled
classifier agrees at the default settings with the windows hard-coded in
`_find_probe_events`. -/
theorem mass_window_resolution_per_query :
    (∀ (cut_and_count : Bool) (mr : MassRange),
      defaultedMassRange cut_and_count (some mr) = mr)
    ∧ defaultedMassRange true none = .scalar 30
    ∧ defaultedMassRange false none = .pair 50 130
    ∧ (∀ (cut_and_count : Bool) (mass_range : Option MassRange)
        (masses : List ℚ) (r : MassRange),
        resolveMassRange cut_and_count mass_range = .ok r →
        r = defaultedMassRange cut_and_count mass_range
        ∧ getTnpArraysMasses cut_and_count mass_range masses
            = .ok (masses.filter (massCls r)))
    ∧ (∀ m : ℚ, massCls (.scalar 30) m = inMassWindow true m)
    ∧ ∀ m : ℚ, massCls (.pair 50 130) m = inMassWindow false m := by
  refine ⟨fun _ _ => rfl, rfl, rfl, ?_, fun m => rfl, fun m => rfl⟩
  intro cut_and_count mass_range masses r h
  have hr : r = defaultedMassRange cut_and_count mass_range := by
    simp only [resolveMassRange] at h
    split_ifs at h with h1 h2
    all_goals simp_all
  refine ⟨hr, ?_⟩
  simp [getTnpArraysMasses, getTnpArraysQuery, h, selectByMassWindow]

/-- C5 witness: a caller-supplied scalar window of 10 is resolved to
itself and applied to the batch. -/
theorem mass_window_resolution_per_query_witness :
    MassRange.scalar 10 = defaultedMassRange true (some (.scalar 10))
    ∧ getTnpArraysMasses true (some (.scalar 10)) [91]
        = .ok ([91].filter (massCls (.scalar 10))) :=
  mass_window_resolution_per_query.2.2.2.1 true (some (.scalar 10)) [91]
    (.scalar 10) rfl

/-- C9: constructing `BaseTagNProbe` with `probes_pt_cut` `None` and more
than one configured filter never assigns the `probes_pt_cut` attribute;
the fallback 5 is bound to the local variable only, so a later read of
the attribute fails instead of seeing a default of 5. -/
theorem init_probes_pt_cut_unassigned (findPtThreshold : String → ℚ)
    (filters : List String) (h : filters.length > 1) :
    (initProbesPtCut findPtThreshold filters none).attr = none
    ∧ (initProbesPtCut findPtThreshold filters none).localVar = some 5 := by
  have h1 : (filters.length == 1) = false := by
    simp only [beq_eq_false_iff_ne, ne_eq]
    omega
  simp [initProbesPtCut, h1, h]

/-- C9 witness: two configured filters and `probes_pt_cut` `None` leave
the attribute unassigned and the local variable at 5. -/
theorem init_probes_pt_cut_unassigned_witness :
    (initProbesPtCut (fun _ => 0) ["a", "b"] none).attr = none
    ∧ (initProbesPtCut (fun _ => 0) ["a", "b"] none).localVar = some 5 :=
  init_probes_pt_cut_unassigned (fun _ => 0) ["a", "b"] (by simp)

/-- Helper: filtering after a map equals mapping after filtering when the
predicate is invariant under the mapped function. -/
theorem filter_map_of_pred_invariant {α : Type} (f : α → α) (p : α → Bool)
    (h : ∀ a, p (f a) = p a) (l : List α) :
    (l.map f).filter p = (l.filter p).map f := by
  rw [List.filter_map]
  congr 1
  exact List.filter_congr (fun a _ => h a)

/-- The supercluster substitution changes no field read by the tag
cuts. -/
theorem tagCuts_scSubstitute (cfg : NTConfig) (e : NTEvent) :
    tagCuts cfg (scSubstitute cfg e) = tagCuts cfg e := by
  cases he : cfg.use_sc_eta
  all_goals cases hp : cfg.use_sc_phi
  all_goals simp [scSubstitute, he, hp, tagCuts]

/-- The supercluster substitution changes no field read by the probe
cut. -/
theorem probeCut_scSubstitute (cfg : NTConfig) (cut_and_count : Bool)
    (e : NTEvent) :
    probeCut cfg cut_and_count (scSubstitute cfg e)
      = probeCut cfg cut_and_count e := by
  cases he : cfg.use_sc_eta
  all_goals cases hp : cfg.use_sc_phi
  all_goals simp [scSubstitute, he, hp, probeCut]

/-- The supercluster substitution changes no field read by the filter
labelling. -/
theorem passingLoc_scSubstitute (cfg : NTConfig) (e : NTEvent) :
    passingLoc (scSubstitute cfg e) = passingLoc e := by
  cases he : cfg.use_sc_eta
  all_goals cases hp : cfg.use_sc_phi
  all_goals simp [scSubstitute, he, hp, passingLoc]

/-- C6 amended: the supercluster substitution of `_find_probes` is applied
after the external predicate and the luminosity mask but before every
built-in cut; no built-in cut reads the substituted probe coordinates
(the only eta-based cut reads the tag eta, which the substitution never
touches), so delaying the substitution past every built-in cut leaves
the selection result unchanged. -/
theorem subst_before_builtin_cuts (cfg : NTConfig) (cut_and_count : Bool)
    (events : List NTEvent) :
    findProbes cfg cut_and_count events
      = findProbesSubstLate cfg cut_and_count events := by
  simp only [findProbes, findProbesSubstLate, findProbeEvents,
    allProbeEvents]
  generalize preSelection cfg events = l
  have h1 : (l.map (scSubstitute cfg)).filter (tagCuts cfg)
      = (l.filter (tagCuts cfg)).map (scSubstitute cfg) :=
    filter_map_of_pred_invariant _ _ (tagCuts_scSubstitute cfg) l
  rw [h1]
  have h2 : ((l.filter (tagCuts cfg)).map (scSubstitute cfg)).filter
        (probeCut cfg cut_and_count)
      = ((l.filter (tagCuts cfg)).filter
          (probeCut cfg cut_and_count)).map (scSubstitute cfg) :=
    filter_map_of_pred_invariant _ _ (probeCut_scSubstitute cfg cut_and_count) _
  rw [h2]
  have h3 := filter_map_of_pred_invariant (scSubstitute cfg) passingLoc
    (passingLoc_scSubstitute cfg)
    ((l.filter (tagCuts cfg)).filter (probeCut cfg cut_and_count))
  have h4 := filter_map_of_pred_invariant (scSubstitute cfg)
    (fun e => !passingLoc e)
    (fun e => by simp only [passingLoc_scSubstitute cfg e])
    ((l.filter (tagCuts cfg)).filter (probeCut cfg cut_and_count))
  rw [h3, h4]

/-- C6 counterexample: with an external filter that reads `el_eta` and
supercluster substitution configured, moving the substitution in front of
the external predicate changes the selection result, so the substitution
is not the first stage. -/
theorem subst_not_first_counterexample :
    findProbes reorderConfig true [reorderEvent]
      ≠ findProbesSubstFirst reorderConfig true [reorderEvent] := by
  have hL : (findProbes reorderConfig true [reorderEvent]).1.length = 1 := by
    norm_num [findProbes, preSelection, findProbeEvents, allProbeEvents,
      probeCut, inMassWindow, tagCuts, scSubstitute, projPass, passingLoc,
      reorderConfig, reorderEvent, scenarioEvent1, List.filter_cons, abs_lt]
  have hR : (findProbesSubstFirst reorderConfig true [reorderEvent]).1.length
      = 0 := by
    norm_num [findProbesSubstFirst, preSelection, findProbeEvents,
      allProbeEvents, probeCut, inMassWindow, tagCuts, scSubstitute,
      projPass, passingLoc, reorderConfig, reorderEvent, scenarioEvent1,
      List.filter_cons, abs_lt]
  intro h
  rw [h, hR] at hL
  exact absurd hL (by norm_num)

/-- C7 amended: probe selection leaves the caller's batch unchanged as
long as supercluster substitution is not configured; when `use_sc_eta` or
`use_sc_phi` is set and neither the external filter nor the luminosity
mask has rebound the working array first, the in-place column assignments
overwrite the caller's `el_eta` and `el_phi` columns. -/
theorem batch_unchanged_without_subst (cfg : NTConfig)
    (events : List NTEvent) (he : cfg.use_sc_eta = false)
    (hp : cfg.use_sc_phi = false) :
    findProbesBatchAfter cfg events = events := by
  have hid : ∀ e, scSubstitute cfg e = e := by
    intro e
    simp [scSubstitute, he, hp]
  unfold findProbesBatchAfter
  split_ifs
  case _ =>
    have hfun : scSubstitute cfg = id := funext hid
    rw [hfun, List.map_id]
  case _ => rfl

/-- C7 witness: with track coordinates and both the external filter and
the golden json absent, the caller's batch is returned unchanged. -/
theorem batch_unchanged_without_subst_witness :
    findProbesBatchAfter scenarioConfig [scenarioEvent1] = [scenarioEvent1] :=
  batch_unchanged_without_subst scenarioConfig [scenarioEvent1] rfl rfl

/-- C7 counterexample: with supercluster eta substitution configured and
nothing rebinding the working array first, the caller's batch is mutated:
its `el_eta` column is overwritten with `el_sc_eta`. -/
theorem batch_mutated_counterexample :
    findProbesBatchAfter mutConfig [mutEvent] ≠ [mutEvent] := by
  intro h
  have h2 := congrArg (fun l => (l.headD mutEvent).el_eta) h
  simp [findProbesBatchAfter, mutConfig, scSubstitute, mutEvent,
    scenarioEvent1] at h2

/-- Helper: appending a fresh element to a list and erasing it again
restores the list. -/
theorem erase_append_singleton {a : String} {l : List String} (h : a ∉ l) :
    (l ++ [a]).erase a = l := by
  rw [List.erase_append_right _ h]
  simp

/-- Helper: projecting the names out of a list of name-keyed pairs gives
back the names. -/
theorem map_fst_mk {β : Type} (f : String → β) (l : List String) :
    l.map (Prod.fst ∘ fun v => (v, f v)) = l := by
  induction l with
  | nil => rfl
  | cons a l ih => simp [ih]

/-- Helper: the field names of the spec-modelled probe record are the
requested variables, then the filter names, then `pair_mass` in range
mode. -/
theorem names_probeRecOfRow (filters : List String) (cut_and_count : Bool)
    (vars : List String) (r : Row) :
    (probeRecOfRow filters cut_and_count vars r).names
      = vars ++ filters ++ (if cut_and_count then [] else ["pair_mass"]) := by
  cases cut_and_count
  all_goals simp [probeRecOfRow, PRec.names, map_fst_mk]

/-- Helper: every record of `findProbesBase` is a `probeRecOfRow`. -/
theorem mem_findProbesBase {select : Row → Bool} {filters : List String}
    {cut_and_count : Bool} {vars : List String} {rows : List Row} {q : PRec}
    (h : q ∈ findProbesBase select filters cut_and_count vars rows) :
    ∃ r, q = probeRecOfRow filters cut_and_count vars r := by
  obtain ⟨r, hr, hq⟩ := List.mem_map.mp h
  exact ⟨r, hq.symm⟩

/-- Helper: a removed name is absent from a record after
`removeField`. -/
theorem not_mem_names_removeField (n : String) (p : PRec) :
    n ∉ (removeField n p).names := by
  intro h
  obtain ⟨kv, hkv, hfst⟩ := List.mem_map.mp h
  have h2 := (List.mem_filter.mp hkv).2
  rw [hfst] at h2
  simp at h2

/-- Helper: attaching the pileup weight appends exactly the `PU_weight`
field name. -/
theorem names_attachPUWeight (puWeight : ℚ → ℚ) (v : String) (p : PRec) :
    (attachPUWeight puWeight v p).names = p.names ++ ["PU_weight"] := by
  simp [attachPUWeight, PRec.names]

/-- Helper: when the requested variables and `pair_mass` differ from the
single configured filter name, `removeField` leaves exactly the requested
variables (plus `pair_mass` in range mode) on a probe record. -/
theorem names_removeField_probeRec (fl : String) (vars : List String)
    (cut_and_count : Bool) (r : Row) (hv : ∀ v ∈ vars, v ≠ fl)
    (hpm : "pair_mass" ≠ fl) :
    (removeField fl (probeRecOfRow [fl] cut_and_count vars r)).names
      = vars ++ (if cut_and_count then [] else ["pair_mass"]) := by
  unfold removeField probeRecOfRow PRec.names
  simp only [List.filter_append, List.map_append]
  have hA : (vars.map (fun v => (v, PVal.num (rowGet r v)))).filter
      (fun kv => !(kv.1 == fl)) = vars.map (fun v => (v, PVal.num (rowGet r v))) := by
    apply List.filter_eq_self.mpr
    intro kv hkv
    obtain ⟨v, hvv, hkv2⟩ := List.mem_map.mp hkv
    rw [← hkv2]
    simpa using hv v hvv
  have hB : (([fl] : List String).map (fun n =>
        (n, PVal.bool (decide (rowGet r n = 1))))).filter
      (fun kv => !(kv.1 == fl)) = [] := by
    simp
  have hC : ((if cut_and_count then []
        else [("pair_mass", PVal.num (rowGet r "pair_mass"))]) : List (String × PVal)).filter
      (fun kv => !(kv.1 == fl)) = (if cut_and_count then []
        else [("pair_mass", PVal.num (rowGet r "pair_mass"))]) := by
    cases cut_and_count
    case true => rfl
    case false =>
      apply List.filter_eq_self.mpr
      intro kv hkv
      simp only [if_neg, Bool.false_eq_true, reduceIte, List.mem_singleton] at hkv
      rw [hkv]
      simpa using hpm
  rw [hA, hB, hC]
  cases cut_and_count
  all_goals simp [map_fst_mk]

/-- C10 amended: the probe records built by `find_probes` carry one
boolean column per configured filter; with exactly one configured filter
(the only shape `dak.without_field` accepts, since a list argument is one
nested field path) the passing and failing records returned have that
filter column removed, and only the requested variables (plus `pair_mass`
in range mode) remain when they do not collide with the filter name;
with more than one configured filter the call fails instead of returning
records. -/
theorem passing_failing_drop_filter_columns
    (select : Row → Bool) (filters : List String) (fl filter : String)
    (cut_and_count : Bool) (vars : List String) (rows : List Row) :
    (∀ q ∈ findProbesBase select filters cut_and_count vars rows,
      ∀ n ∈ filters, n ∈ q.names)
    ∧ (∀ passing failing,
        getPassingAndFailingProbes select [fl] filter cut_and_count vars rows
          = .ok (passing, failing) →
        ∀ p, (p ∈ passing ∨ p ∈ failing) →
          fl ∉ p.names
          ∧ ((∀ v ∈ vars, v ≠ fl) → "pair_mass" ≠ fl →
            p.names = vars ++ (if cut_and_count then [] else ["pair_mass"])))
    ∧ (∀ e, getPassingAndFailingProbes select [fl] filter cut_and_count
        vars rows ≠ .error e)
    ∧ (2 ≤ filters.length →
      ∀ result, getPassingAndFailingProbes select filters filter
        cut_and_count vars rows ≠ .ok result) := by
  refine ⟨?_, ?_, ?_, ?_⟩
  case _ =>
    intro q hq n hn
    obtain ⟨r, rfl⟩ := mem_findProbesBase hq
    rw [names_probeRecOfRow]
    exact List.mem_append.mpr (Or.inl (List.mem_append.mpr (Or.inr hn)))
  case _ =>
    intro passing failing heq p hp
    simp only [getPassingAndFailingProbes, withoutFieldArr,
      Except.ok.injEq, Prod.mk.injEq] at heq
    obtain ⟨h1, h2⟩ := heq
    rw [← h1, ← h2] at hp
    have hex : ∃ r, p = removeField fl
        (probeRecOfRow [fl] cut_and_count vars r) := by
      rcases hp with h | h
      all_goals
        obtain ⟨q, hq, hpq⟩ := List.mem_map.mp h
        simp only [splitByFilter] at hq
        obtain ⟨r, rfl⟩ := mem_findProbesBase (List.mem_filter.mp hq).1
        exact ⟨r, hpq.symm⟩
    obtain ⟨r, rfl⟩ := hex
    constructor
    case left => exact not_mem_names_removeField fl _
    case right =>
      intro hv hpm
      exact names_removeField_probeRec fl vars cut_and_count r hv hpm
  case _ =>
    intro e h
    simp only [getPassingAndFailingProbes, withoutFieldArr] at h
    exact Except.noConfusion h
  case _ =>
    intro hlen result h
    rcases filters with _ | ⟨a, tail⟩
    case nil => simp at hlen
    case cons =>
      rcases tail with _ | ⟨b, rest⟩
      case nil => simp at hlen
      case cons =>
        simp only [getPassingAndFailingProbes, withoutFieldArr] at h
        exact Except.noConfusion h

/-- C10 counterexample: with two configured filters, `dak.without_field`
reads the filter list as one nested field path, descends into the first
filter column -- a flat boolean, not a record -- and fails, so the call
returns no passing and failing records at all, let alone ones with each
filter column removed. -/
theorem without_field_multi_filter_counterexample :
    getPassingAndFailingProbes (fun _ => true) ["f1", "f2"] "f1" true
        ["el_pt"] [[("el_pt", 30), ("f1", 1), ("f2", 0)]]
      = .error withoutFieldErrorMsg := rfl

/-- C10 witness: a one-row batch with one configured filter; the call
succeeds and the returned passing record no longer carries the filter
column. -/
theorem passing_failing_drop_filter_columns_witness :
    "f1" ∉ (removeField "f1"
      (probeRecOfRow ["f1"] true ["el_pt"] [("el_pt", 30), ("f1", 1)])).names := by
  have h := (passing_failing_drop_filter_columns (fun _ => true) ["f1"]
    "f1" "f1" true ["el_pt"] [[("el_pt", 30), ("f1", 1)]]).2.1
  have heq : getPassingAndFailingProbes (fun _ => true) ["f1"] "f1" true
      ["el_pt"] [[("el_pt", 30), ("f1", 1)]]
      = .ok ([removeField "f1" (probeRecOfRow ["f1"] true ["el_pt"]
          [("el_pt", 30), ("f1", 1)])], []) := by
    simp [getPassingAndFailingProbes, withoutFieldArr, findProbesBase,
      splitByFilter, PRec.filterValue, probeRecOfRow, rowGet, removeField,
      List.find?, List.filter_cons]
  exact (h _ _ heq _ (Or.inl (by simp))).1

/-- Helper: the truth-pileup variable is one of its two candidates. -/
theorem truthPileupVar_cases (eventFields : List String) :
    truthPileupVar eventFields = "truePU"
      ∨ truthPileupVar eventFields = "Pileup_nTrueInt" := by
  unfold truthPileupVar
  split_ifs
  case _ => exact Or.inl rfl
  case _ => exact Or.inr rfl

/-- C8: for a dataset marked simulated with a pileup-correction source
configured, the histogram-making stage hands the fill functions passing
and failing records that both carry a `PU_weight` column and restores the
output variable list (the truth-pileup lookup key is appended before
selection and removed afterwards); for a dataset not marked simulated, no
`PU_weight` column is attached and the variable list is left
unchanged. -/
theorem pileup_weight_stage
    (select : Row → Bool) (filters : List String) (puWeight : ℚ → ℚ)
    (cut_and_count : Bool) (meta : Metadata) (eventFields : List String)
    (rows : List Row) (filter : String) (vars : List String) :
    (meta.isMC = true → meta.pileupSource = true →
      "truePU" ∉ vars → "Pileup_nTrueInt" ∉ vars →
      "truePU" ∉ filters → "Pileup_nTrueInt" ∉ filters →
      (makeTnpHistograms select filters puWeight cut_and_count meta
          eventFields rows filter vars).varsAfter = vars
      ∧ (∀ p ∈ (makeTnpHistograms select filters puWeight cut_and_count
            meta eventFields rows filter vars).passing,
          "PU_weight" ∈ p.names)
      ∧ ∀ p ∈ (makeTnpHistograms select filters puWeight cut_and_count
            meta eventFields rows filter vars).failing,
          "PU_weight" ∈ p.names)
    ∧ (meta.isMC = false → "PU_weight" ∉ vars → "PU_weight" ∉ filters →
      (makeTnpHistograms select filters puWeight cut_and_count meta
          eventFields rows filter vars).varsAfter = vars
      ∧ (∀ p ∈ (makeTnpHistograms select filters puWeight cut_and_count
            meta eventFields rows filter vars).passing,
          "PU_weight" ∉ p.names)
      ∧ ∀ p ∈ (makeTnpHistograms select filters puWeight cut_and_count
            meta eventFields rows filter vars).failing,
          "PU_weight" ∉ p.names) := by
  constructor
  case left =>
    intro hmc hsrc h1 h2 h3 h4
    rcases truthPileupVar_cases eventFields with hv | hv
    case inl =>
      have hcontains : "truePU" ∈ probesSchema filters cut_and_count
          (vars ++ [truthPileupVar eventFields]) := by
        rw [hv]
        simp [probesSchema]
      have hres : makeTnpHistograms select filters puWeight cut_and_count
          meta eventFields rows filter vars
          = { passing := (splitByFilter filter (findProbesBase select filters
                cut_and_count (vars ++ [truthPileupVar eventFields])
                rows)).1.map (attachPUWeight puWeight "truePU"),
              failing := (splitByFilter filter (findProbesBase select filters
                cut_and_count (vars ++ [truthPileupVar eventFields])
                rows)).2.map (attachPUWeight puWeight "truePU"),
              varsAfter := (vars ++ [truthPileupVar eventFields]).erase
                "truePU" } := by
        simp [makeTnpHistograms, hmc, hsrc, hcontains]
      rw [hres]
      refine ⟨?_, ?_, ?_⟩
      case _ =>
        rw [hv]
        exact erase_append_singleton h1
      case _ =>
        intro p hp
        obtain ⟨q, hq, rfl⟩ := List.mem_map.mp hp
        rw [names_attachPUWeight]
        simp
      case _ =>
        intro p hp
        obtain ⟨q, hq, rfl⟩ := List.mem_map.mp hp
        rw [names_attachPUWeight]
        simp
    case inr =>
      have hnotTrue : "truePU" ∉ probesSchema filters cut_and_count
          (vars ++ [truthPileupVar eventFields]) := by
        rw [hv]
        intro hmem
        cases cut_and_count
        all_goals simp [probesSchema] at hmem
        all_goals tauto
      have hcontains2 : "Pileup_nTrueInt" ∈ probesSchema filters
          cut_and_count (vars ++ [truthPileupVar eventFields]) := by
        rw [hv]
        simp [probesSchema]
      have hres : makeTnpHistograms select filters puWeight cut_and_count
          meta eventFields rows filter vars
          = { passing := (splitByFilter filter (findProbesBase select filters
                cut_and_count (vars ++ [truthPileupVar eventFields])
                rows)).1.map (attachPUWeight puWeight "Pileup_nTrueInt"),
              failing := (splitByFilter filter (findProbesBase select filters
                cut_and_count (vars ++ [truthPileupVar eventFields])
                rows)).2.map (attachPUWeight puWeight "Pileup_nTrueInt"),
              varsAfter := (vars ++ [truthPileupVar eventFields]).erase
                "Pileup_nTrueInt" } := by
        simp [makeTnpHistograms, hmc, hsrc, hnotTrue, hcontains2]
      rw [hres]
      refine ⟨?_, ?_, ?_⟩
      case _ =>
        rw [hv]
        exact erase_append_singleton h2
      case _ =>
        intro p hp
        obtain ⟨q, hq, rfl⟩ := List.mem_map.mp hp
        rw [names_attachPUWeight]
        simp
      case _ =>
        intro p hp
        obtain ⟨q, hq, rfl⟩ := List.mem_map.mp hp
        rw [names_attachPUWeight]
        simp
  case right =>
    intro hmc hw1 hw2
    have hres : makeTnpHistograms select filters puWeight cut_and_count
        meta eventFields rows filter vars
        = { passing := (splitByFilter filter (findProbesBase select filters
              cut_and_count vars rows)).1,
            failing := (splitByFilter filter (findProbesBase select filters
              cut_and_count vars rows)).2,
            varsAfter := vars } := by
      simp [makeTnpHistograms, hmc]
    rw [hres]
    refine ⟨rfl, ?_, ?_⟩
    case _ =>
      intro p hp
      simp only [splitByFilter] at hp
      obtain ⟨r, rfl⟩ := mem_findProbesBase (List.mem_filter.mp hp).1
      rw [names_probeRecOfRow]
      intro hmem
      cases cut_and_count
      all_goals simp at hmem
      all_goals tauto
    case _ =>
      intro p hp
      simp only [splitByFilter] at hp
      obtain ⟨r, rfl⟩ := mem_findProbesBase (List.mem_filter.mp hp).1
      rw [names_probeRecOfRow]
      intro hmem
      cases cut_and_count
      all_goals simp at hmem
      all_goals tauto

/-- C8 witness: a simulated dataset with a pileup JSON configured; the
variable list handed to the fill functions equals the requested one. -/
theorem pileup_weight_stage_witness :
    (makeTnpHistograms (fun _ => true) ["f1"] (fun _ => 1) true
      { isMC := true, pileupJSON := some "pu.json", pileupData := none,
        pileupMC := none }
      ["truePU"] [] "f1" ["el_pt"]).varsAfter = ["el_pt"] :=
  ((pileup_weight_stage (fun _ => true) ["f1"] (fun _ => 1) true
      { isMC := true, pileupJSON := some "pu.json", pileupData := none,
        pileupMC := none }
      ["truePU"] [] "f1" ["el_pt"]).1 rfl rfl (by simp) (by simp)
    (by simp) (by simp)).1

end EgammaTnp
